import Mathlib

/-!
Verification of the cosmic-text FFI marshaling layer (src/lib.rs): the
`ByteBuffer` transfer protocol, the opaque-handle free operations, the
UTF-16 attribute/text marshaling of `buffer_set_text`, the layout-run
streaming loop, and the uncached rasterization wrapper.

Machine integers are modelled as mathematical integers with explicit
wrapping where the Rust code wraps (`as` casts, release-mode `*`), and as
`Option` results where the Rust code panics (`try_from(...).expect`,
`unwrap`).  Heap pointers are modelled as `Nat` addresses, `0` standing
for the null pointer; the bytes an allocation holds are carried alongside
the address as ghost state so that ownership transfer can be stated.
-/

/-- Wrap an integer to signed 32-bit two's-complement range,
the effect of an `as i32` cast and of release-mode `i32` arithmetic. -/
def toI32 (n : Int) : Int :=
  (n + 2147483648) % 4294967296 - 2147483648

/-- Reinterpret a (possibly negative) `i32` value as a 64-bit `usize`,
the effect of an `as usize` cast on a 64-bit target. -/
def toUSize64 (n : Int) : Nat :=
  (n % 18446744073709551616).toNat

/-- Model of a Rust `Vec`: the data pointer address (`Vec`'s pointer is
never null; for a capacity-0 `Vec` of `u8` it is the dangling aligned
address 1), the contents of the allocation as ghost state, the `len`
field and the `capacity` field. -/
structure RustVec where
  addr : Nat
  store : List Nat
  len : Nat
  cap : Nat
deriving DecidableEq

/-- The value of `vec![]` / `Vec::new()`: no allocation, dangling
non-null pointer (`NonNull::dangling()` = 1 for `u8`), length and
capacity zero. -/
def emptyVec : RustVec := ⟨1, [], 0, 0⟩

/-- `ByteBuffer` from src/lib.rs: `ptr: *mut u8` (address, 0 = null),
`length: i32`, `capacity: i32`.  `allocContents` is the ghost contents of
the allocation the pointer refers to. -/
structure ByteBuffer where
  addr : Nat
  allocContents : List Nat
  length : Int
  capacity : Int
deriving DecidableEq

/-- `ByteBuffer::from_vec`: converts length and capacity with
`i32::try_from(...).expect(...)`, which panics (`none`) when either does
not fit in an `i32`; the `Vec` is wrapped in `ManuallyDrop` and its
pointer, elements and capacity move into the buffer unchanged. -/
def ByteBuffer.from_vec (v : RustVec) : Option ByteBuffer :=
  if v.len ≤ 2147483647 then
    if v.cap ≤ 2147483647 then
      some ⟨v.addr, v.store, Int.ofNat v.len, Int.ofNat v.cap⟩
    else none
  else none

/-- `ByteBuffer::from_vec_struct::<T>`: `element_size = size_of::<T>() as
i32`; length and capacity are computed with unchecked `as i32` casts and
release-mode (wrapping) `i32` multiplication, so no panic occurs and the
fields may wrap. -/
def ByteBuffer.from_vec_struct (elementSize : Nat) (v : RustVec) : ByteBuffer :=
  let es : Int := toI32 (Int.ofNat elementSize)
  { addr := v.addr
    allocContents := v.store
    length := toI32 (toI32 (Int.ofNat v.len) * es)
    capacity := toI32 (toI32 (Int.ofNat v.cap) * es) }

/-- `ByteBuffer::destroy_into_vec`: a null pointer yields `vec![]`
regardless of the other fields; otherwise `capacity.try_into()` and
`length.try_into()` panic (`none`) on negative values, and
`Vec::from_raw_parts(ptr, length, capacity)` reassembles the vector. -/
def ByteBuffer.destroy_into_vec (b : ByteBuffer) : Option RustVec :=
  if b.addr = 0 then
    some emptyVec
  else
    if 0 ≤ b.capacity then
      if 0 ≤ b.length then
        some ⟨b.addr, b.allocContents, b.length.toNat, b.capacity.toNat⟩
      else none
    else none

/-- `ByteBuffer::destroy_into_vec_struct::<T>`: a null pointer yields
`vec![]`; otherwise the stored `length` and `capacity` are *multiplied*
by `element_size` (release-mode wrapping `i32` multiply, then `as usize`)
and handed to `Vec::from_raw_parts`.  No branch panics. -/
def ByteBuffer.destroy_into_vec_struct (elementSize : Nat) (b : ByteBuffer) : RustVec :=
  if b.addr = 0 then
    emptyVec
  else
    let es : Int := toI32 (Int.ofNat elementSize)
    { addr := b.addr
      store := b.allocContents
      len := toUSize64 (toI32 (b.length * es))
      cap := toUSize64 (toI32 (b.capacity * es)) }

/-- What a `free` entry point does with its handle: nothing, or a
`Box::from_raw` reclamation of the given pointer (`reclaim true` is a
reclamation attempted on a null handle, which is not a no-op and is
undefined behavior). -/
inductive FreeAction where
  | noop
  | reclaim (isNull : Bool)
deriving DecidableEq

/-- `fontsystem_free`: calls `Box::from_raw(ctx)` unconditionally, with
no null check. -/
def fontsystem_free (isNull : Bool) : FreeAction :=
  FreeAction.reclaim isNull

/-- `swashcache_free`: returns without effect when the handle is null,
otherwise reclaims it. -/
def swashcache_free (isNull : Bool) : FreeAction :=
  if isNull then FreeAction.noop else FreeAction.reclaim isNull

/-- `metrics_free`: returns without effect when the handle is null,
otherwise reclaims it. -/
def metrics_free (isNull : Bool) : FreeAction :=
  if isNull then FreeAction.noop else FreeAction.reclaim isNull

/-- `buffer_free`: returns without effect when the handle is null,
otherwise reclaims it. -/
def buffer_free (isNull : Bool) : FreeAction :=
  if isNull then FreeAction.noop else FreeAction.reclaim isNull

/-- A UTF-16 code unit is a high (leading) surrogate. -/
def isHighSurrogate (u : Nat) : Bool :=
  0xD800 ≤ u && u ≤ 0xDBFF

/-- A UTF-16 code unit is a low (trailing) surrogate. -/
def isLowSurrogate (u : Nat) : Bool :=
  0xDC00 ≤ u && u ≤ 0xDFFF

/-- `String::from_utf16` on a span of code units: decodes to the list of
scalar values, or fails (`Err`, unwrapped into a panic by the callers in
src/lib.rs) exactly when a surrogate code unit is unpaired. -/
def utf16Decode : List Nat → Option (List Nat)
  | [] => some []
  | [u] =>
    if isHighSurrogate u || isLowSurrogate u then none
    else some [u]
  | u :: v :: rest =>
    if isHighSurrogate u then
      if isLowSurrogate v then
        (utf16Decode rest).map
          fun t => (0x10000 + (u - 0xD800) * 0x400 + (v - 0xDC00)) :: t
      else none
    else if isLowSurrogate u then none
    else (utf16Decode (v :: rest)).map fun t => u :: t

/-- A UTF-16 code-unit span contains an unpaired surrogate: a high
surrogate not immediately followed by a low surrogate, or a low
surrogate not consumed as the second half of a pair. -/
def hasUnpairedSurrogate : List Nat → Bool
  | [] => false
  | [u] => isHighSurrogate u || isLowSurrogate u
  | u :: v :: rest =>
    if isHighSurrogate u then
      if isLowSurrogate v then hasUnpairedSurrogate rest
      else true
    else if isLowSurrogate u then true
    else hasUnpairedSurrogate (v :: rest)

/-- The engine's family selector (`fontdb::Family`): a decoded family
name, or one of the generic classes.  A name is carried as its list of
decoded scalar values. -/
inductive RFamily where
  | name (s : List Nat)
  | serif
  | sansSerif
  | cursive
  | fantasy
  | monospace
deriving DecidableEq

/-- The engine-side `Attrs` value that `buffer_set_text` assembles.
Color, stretch, style, weight, metadata and cache-key flags are opaque
engine-compatible values, modelled as `Nat`. -/
structure RAttrs where
  color_opt : Option Nat
  family : RFamily
  stretch : Nat
  style : Nat
  weight : Nat
  metadata : Nat
  cache_key_flags : Nat
deriving DecidableEq

/-- `PrimAttrs` from src/lib.rs, as seen through the boundary:
`familySpan` is the `family_len` UTF-16 code units read from the
`family` pointer (`from_raw_parts(family, family_len)`), so
`family_len = familySpan.length`. -/
structure PrimAttrs where
  color : Nat
  familySpan : List Nat
  stretch : Nat
  style : Nat
  weight : Nat
  metadata : Nat
  cache_key_flags : Nat
deriving DecidableEq

/-- The request `buffer_set_text` hands to the engine's
`Buffer::set_text(font_system, &str, attrs, shaping)`: the assembled
attributes, the decoded text, and the shaping mode passed through. -/
structure SetTextCall where
  attrs : RAttrs
  text : List Nat
  shaping : Nat
deriving DecidableEq

/-- The family branch of `buffer_set_text`: `family_len == 0` selects
`fontdb::Family::Serif`; otherwise the family span is decoded with
`String::from_utf16(..).unwrap()` (panic on failure, `none`). -/
def familyOf (prim : PrimAttrs) : Option RFamily :=
  match prim.familySpan with
  | [] => some RFamily.serif
  | _ :: _ => (utf16Decode prim.familySpan).map RFamily.name

/-- `buffer_set_text`: resolve the family (first, as in the source),
assemble `Attrs` with `color_opt = Some(color)` and the remaining fields
copied unchanged, decode the text span with
`String::from_utf16(..).unwrap()` (panic on failure, `none`), and call
the engine.  `none` models a panic; there is no error return. -/
def buffer_set_text (prim : PrimAttrs) (text : List Nat) (shaping : Nat) :
    Option SetTextCall :=
  (familyOf prim).bind fun fam =>
    (utf16Decode text).map fun str =>
      { attrs :=
          { color_opt := some prim.color
            family := fam
            stretch := prim.stretch
            style := prim.style
            weight := prim.weight
            metadata := prim.metadata
            cache_key_flags := prim.cache_key_flags }
        text := str
        shaping := shaping }

/-- A layout run as exposed to the callback: originating line index,
text slice, right-to-left flag and glyph sequence.  (The `f32` geometry
fields play no role in the ordering claim and are omitted.) -/
structure LayoutRun where
  line_i : Nat
  text : List Nat
  rtl : Bool
  glyphs : List Nat
deriving DecidableEq

/-- `buffer_layout_runs`: `for run in buffer.layout_runs() {
callback(&run); }`.  The returned list is the sequence of callback
invocations, accumulated front to back by the loop. -/
def buffer_layout_runs (runs : List LayoutRun) : List LayoutRun :=
  runs.foldl (fun calls run => calls ++ [run]) []

/-- Modelled from the spec: the engine's `Buffer::layout_runs` iterator
(engine code, not part of src/lib.rs) yields the already-computed runs
in front-to-back visual line order, i.e. with strictly ascending line
indices, and yields the empty sequence for a buffer that has not been
shaped. -/
def engineLayoutOrdered (runs : List LayoutRun) : Prop :=
  List.Chain' (fun a b => a.line_i < b.line_i) runs

/-- `SwashContent` from the engine: the kind of pixel data. -/
inductive SwashContent where
  | mask
  | subpixelMask
  | color
deriving DecidableEq

/-- `swash::zeno::Placement`: the placement rectangle of a rasterized
glyph. -/
structure Placement where
  left : Int
  top : Int
  width : Nat
  height : Nat
deriving DecidableEq

/-- Modelled from the spec: the image the engine's
`SwashCache::get_image_uncached` (engine code, not part of src/lib.rs)
may produce — pixel data as an owned byte vector plus content kind and
placement. -/
structure EngineImage where
  data : RustVec
  content : SwashContent
  placement : Placement
deriving DecidableEq

/-- `SwashImage` from src/lib.rs: a `ByteBuffer` of pixel data plus the
content kind and placement. -/
structure SwashImage where
  data : ByteBuffer
  content : SwashContent
  placement : Placement
deriving DecidableEq

/-- `Vec::clone` of the pixel data (`image.data.clone()`): a fresh
allocation (at an allocator-chosen non-null address) holding exactly the
`len` live elements, with capacity equal to the length. -/
def cloneVec (freshAddr : Nat) (v : RustVec) : RustVec :=
  ⟨freshAddr, v.store.take v.len, v.len, v.len⟩

/-- `swashcache_get_image_uncached`: the engine's result is `engineImage`
(`None` = not found).  On `None` the function returns `false` and leaves
the out-parameter (whose prior contents are `outPrev`) unwritten.
Otherwise it clones the pixel data into a `ByteBuffer` via `from_vec`
(which can panic on overflow, hence the outer `Option`), writes the
assembled `SwashImage` through the out-pointer and returns `true`. -/
def swashcache_get_image_uncached (freshAddr : Nat)
    (engineImage : Option EngineImage) (outPrev : SwashImage) :
    Option (Bool × SwashImage) :=
  match engineImage with
  | none => some (false, outPrev)
  | some image =>
    (ByteBuffer.from_vec (cloneVec freshAddr image.data)).map fun bb =>
      (true, ⟨bb, image.content, image.placement⟩)

/-- A `Vec<u8>` one element past `i32::MAX` in length and capacity: the
smallest collection whose size fields do not fit the boundary's `i32`. -/
def hugeVec : RustVec :=
  ⟨1, List.replicate 2147483648 0, 2147483648, 2147483648⟩

/-- The claimed Transfer Buffer invariant, stated from the spec's words:
the pointer is null exactly when the described region is empty. -/
def nullIffEmpty (b : ByteBuffer) : Prop :=
  b.addr = 0 ↔ b.length = 0

instance (b : ByteBuffer) : Decidable (nullIffEmpty b) := by
  unfold nullIffEmpty
  infer_instance

theorem utf16Decode_eq_none_iff (l : List Nat) :
    utf16Decode l = none ↔ hasUnpairedSurrogate l = true := by
  induction l using utf16Decode.induct <;>
    simp [utf16Decode, hasUnpairedSurrogate, Option.map_eq_none', *]

theorem foldl_append_singleton (l : List LayoutRun) (acc : List LayoutRun) :
    l.foldl (fun calls run => calls ++ [run]) acc = acc ++ l := by
  induction l generalizing acc with
  | nil => simp
  | cons r rest ih => simp [List.foldl_cons, ih]

theorem buffer_layout_runs_eq (runs : List LayoutRun) :
    buffer_layout_runs runs = runs := by
  unfold buffer_layout_runs
  simpa using foldl_append_singleton runs []

/-- Claim C1: the typed round-trip fails on the code.  For a one-element
collection of an element type of size 4, `from_vec_struct` stores
length = capacity = 4 (scaled up), and `destroy_into_vec_struct`
multiplies by the element size *again* instead of dividing, reconstructing
a collection that claims 16 elements rather than the original 1. -/
theorem destroy_from_vec_struct_multiplies_again :
    ByteBuffer.destroy_into_vec_struct 4
        (ByteBuffer.from_vec_struct 4 ⟨1, [7], 1, 1⟩) = ⟨1, [7], 16, 16⟩ ∧
    (⟨1, [7], 16, 16⟩ : RustVec) ≠ ⟨1, [7], 1, 1⟩ := by
  decide

/-- Claim C2, counterexample: `fontsystem_free` performs `Box::from_raw`
unconditionally, so on a null font-catalog handle it is not a no-op. -/
theorem fontsystem_free_null_not_noop :
    fontsystem_free true ≠ FreeAction.noop := by
  decide

/-- Claim C2, amended: freeing a null handle is a no-op for the
rasterization cache, the size metrics and the text buffer; the font
catalog's free has no null check and attempts the reclamation on the
null handle. -/
theorem null_free_behaviour_by_kind :
    swashcache_free true = FreeAction.noop ∧
    metrics_free true = FreeAction.noop ∧
    buffer_free true = FreeAction.noop ∧
    fontsystem_free true = FreeAction.reclaim true := by
  decide

/-- Claim C3, counterexample: `from_vec` applied to the empty collection
forwards the `Vec`'s dangling, non-null data pointer, so the resulting
buffer has a non-null pointer with zero length — the null-iff-empty
invariant fails. -/
theorem from_vec_empty_has_nonnull_ptr :
    ByteBuffer.from_vec emptyVec = some ⟨1, [], 0, 0⟩ ∧
    ¬ nullIffEmpty ⟨1, [], 0, 0⟩ := by
  decide

/-- Claim C3, amended: a buffer produced by `from_vec` from a genuine
`Vec` (whose data pointer is never null) always carries a non-null
pointer, and its length field is zero exactly when the source collection
was empty. -/
theorem from_vec_ptr_nonnull_len_zero_iff_empty
    (v : RustVec) (bb : ByteBuffer) (hv : v.addr ≠ 0)
    (h : ByteBuffer.from_vec v = some bb) :
    bb.addr ≠ 0 ∧ (bb.length = 0 ↔ v.len = 0) := by
  unfold ByteBuffer.from_vec at h
  split_ifs at h
  cases h
  refine ⟨hv, ?_⟩
  simp

theorem from_vec_ptr_nonnull_len_zero_iff_empty_witness :
    (⟨2, [9], 1, 1⟩ : RustVec).addr ≠ 0 ∧
    ByteBuffer.from_vec ⟨2, [9], 1, 1⟩ = some ⟨2, [9], 1, 1⟩ ∧
    ((⟨2, [9], 1, 1⟩ : ByteBuffer).addr ≠ 0 ∧
      ((⟨2, [9], 1, 1⟩ : ByteBuffer).length = 0 ↔ (⟨2, [9], 1, 1⟩ : RustVec).len = 0)) :=
  ⟨by decide, by decide,
    from_vec_ptr_nonnull_len_zero_iff_empty ⟨2, [9], 1, 1⟩ ⟨2, [9], 1, 1⟩
      (by decide) (by decide)⟩

/-- Claim C4, counterexample: the typed variant does not abort on
overflow.  For a byte-sized element type and a collection of length
2^31, `from_vec_struct` silently wraps the `as i32` cast and produces a
buffer whose length field is the wrapped value -2^31 rather than the
true length. -/
theorem from_vec_struct_wraps_on_overflow :
    (ByteBuffer.from_vec_struct 1 hugeVec).length = -2147483648 ∧
    (ByteBuffer.from_vec_struct 1 hugeVec).length ≠ Int.ofNat hugeVec.len := by
  decide

/-- Claim C4, amended: only the byte variant `from_vec` aborts on
overflow — it panics exactly when the collection's length or capacity
exceeds `i32::MAX` — while the typed variant `from_vec_struct` never
aborts: its length field is the wrapping `as i32` cast of length times
element size. -/
theorem from_vec_abort_iff_overflow (v : RustVec) (s : Nat) :
    (ByteBuffer.from_vec v = none ↔
      2147483647 < v.len ∨ 2147483647 < v.cap) ∧
    (ByteBuffer.from_vec_struct s v).length =
      toI32 (toI32 (Int.ofNat v.len) * toI32 (Int.ofNat s)) := by
  constructor
  · unfold ByteBuffer.from_vec
    split_ifs with h1 h2 <;> simp <;> omega
  · rfl

/-- Claim C5: `buffer_set_text` decodes the family span (when its length
is non-zero) and the text span with `String::from_utf16(..).unwrap()`;
an unpaired surrogate in either makes the decode fail and the call panic
(`none`) — no error value exists and nothing is reported back. -/
theorem set_text_unpaired_surrogate_is_fatal
    (prim : PrimAttrs) (text : List Nat) (shaping : Nat)
    (h : hasUnpairedSurrogate text = true ∨
      (prim.familySpan ≠ [] ∧ hasUnpairedSurrogate prim.familySpan = true)) :
    buffer_set_text prim text shaping = none := by
  rcases h with h | ⟨hne, h⟩
  · have ht : utf16Decode text = none := (utf16Decode_eq_none_iff text).mpr h
    unfold buffer_set_text
    cases familyOf prim <;> simp [ht]
  · have hf : utf16Decode prim.familySpan = none :=
      (utf16Decode_eq_none_iff prim.familySpan).mpr h
    unfold buffer_set_text familyOf
    cases hspan : prim.familySpan with
    | nil => exact absurd hspan hne
    | cons a l =>
      rw [hspan] at hf
      simp [hf]

theorem set_text_unpaired_surrogate_is_fatal_witness :
    (hasUnpairedSurrogate [0xDC00] = true ∨
      ((⟨0, [], 0, 0, 0, 0, 0⟩ : PrimAttrs).familySpan ≠ [] ∧
        hasUnpairedSurrogate (⟨0, [], 0, 0, 0, 0, 0⟩ : PrimAttrs).familySpan = true)) ∧
    buffer_set_text ⟨0, [], 0, 0, 0, 0, 0⟩ [0xDC00] 0 = none :=
  ⟨Or.inl (by decide),
    set_text_unpaired_surrogate_is_fatal ⟨0, [], 0, 0, 0, 0, 0⟩ [0xDC00] 0
      (Or.inl (by decide))⟩

/-- Claim C6, counterexample: for a byte collection of length 2^31 the
conversion `from_vec` panics (its checked `i32` conversion fails), so
the round-trip aborts instead of yielding the original collection. -/
theorem byte_roundtrip_aborts_past_i32_max :
    (ByteBuffer.from_vec hugeVec).bind ByteBuffer.destroy_into_vec = none ∧
    (ByteBuffer.from_vec hugeVec).bind ByteBuffer.destroy_into_vec ≠ some hugeVec := by
  decide

/-- Claim C6, amended: for every owned byte collection whose length and
capacity fit the boundary's `i32` fields (including the empty
collection), `destroy_into_vec (from_vec B)` restores B exactly — same
pointer, same contents, same length and capacity. -/
theorem byte_roundtrip_restores_vec (v : RustVec) (h0 : v.addr ≠ 0)
    (h1 : v.len ≤ 2147483647) (h2 : v.cap ≤ 2147483647) :
    (ByteBuffer.from_vec v).bind ByteBuffer.destroy_into_vec = some v := by
  unfold ByteBuffer.from_vec ByteBuffer.destroy_into_vec
  simp [h0, h1, h2]

theorem byte_roundtrip_restores_vec_witness :
    ((⟨5, [9, 8, 0], 2, 3⟩ : RustVec).addr ≠ 0 ∧
      (⟨5, [9, 8, 0], 2, 3⟩ : RustVec).len ≤ 2147483647 ∧
      (⟨5, [9, 8, 0], 2, 3⟩ : RustVec).cap ≤ 2147483647) ∧
    (ByteBuffer.from_vec ⟨5, [9, 8, 0], 2, 3⟩).bind ByteBuffer.destroy_into_vec =
      some ⟨5, [9, 8, 0], 2, 3⟩ :=
  ⟨⟨by decide, by decide, by decide⟩,
    byte_roundtrip_restores_vec ⟨5, [9, 8, 0], 2, 3⟩ (by decide) (by decide) (by decide)⟩

/-- Claim C7: `destroy_into_vec` checks the pointer first; a null
pointer yields `vec![]` before the length and capacity fields are even
converted, so any values there — negative included — are ignored. -/
theorem destroy_null_yields_empty (b : ByteBuffer) (h : b.addr = 0) :
    ByteBuffer.destroy_into_vec b = some emptyVec := by
  unfold ByteBuffer.destroy_into_vec
  simp [h]

theorem destroy_null_yields_empty_witness :
    (⟨0, [3], -5, -7⟩ : ByteBuffer).addr = 0 ∧
    ByteBuffer.destroy_into_vec ⟨0, [3], -5, -7⟩ = some emptyVec :=
  ⟨by decide, destroy_null_yields_empty ⟨0, [3], -5, -7⟩ (by decide)⟩

/-- Claim C8: the streaming loop of `buffer_layout_runs` invokes the
callback exactly once per run, in exactly the engine-produced order
(ascending line index, per the spec's description of `layout_runs`),
with no reordering, buffering or skips; an unshaped buffer's empty run
sequence produces zero invocations and is not an error. -/
theorem layout_runs_stream_in_order (runs : List LayoutRun)
    (h : engineLayoutOrdered runs) :
    buffer_layout_runs runs = runs ∧
    (buffer_layout_runs runs).length = runs.length ∧
    List.Chain' (fun a b => a.line_i < b.line_i) (buffer_layout_runs runs) ∧
    (runs = [] → buffer_layout_runs runs = []) := by
  have e := buffer_layout_runs_eq runs
  refine ⟨e, by rw [e], ?_, ?_⟩
  · rw [e]
    exact h
  · intro h0
    rw [e, h0]

theorem layout_runs_stream_in_order_witness :
    engineLayoutOrdered [⟨0, [72], false, [1]⟩, ⟨1, [105], false, [2]⟩] ∧
    (buffer_layout_runs [⟨0, [72], false, [1]⟩, ⟨1, [105], false, [2]⟩] =
        [⟨0, [72], false, [1]⟩, ⟨1, [105], false, [2]⟩] ∧
      (buffer_layout_runs [⟨0, [72], false, [1]⟩, ⟨1, [105], false, [2]⟩]).length =
        ([⟨0, [72], false, [1]⟩, ⟨1, [105], false, [2]⟩] : List LayoutRun).length ∧
      List.Chain' (fun a b => a.line_i < b.line_i)
        (buffer_layout_runs [⟨0, [72], false, [1]⟩, ⟨1, [105], false, [2]⟩]) ∧
      ([⟨0, [72], false, [1]⟩, ⟨1, [105], false, [2]⟩] = ([] : List LayoutRun) →
        buffer_layout_runs [⟨0, [72], false, [1]⟩, ⟨1, [105], false, [2]⟩] = [])) :=
  have h : engineLayoutOrdered [⟨0, [72], false, [1]⟩, ⟨1, [105], false, [2]⟩] := by
    simp [engineLayoutOrdered, List.chain'_cons, List.chain'_singleton]
  ⟨h, layout_runs_stream_in_order _ h⟩

/-- Claim C9: `buffer_set_text` resolves a zero-length family span to
`fontdb::Family::Serif` and a non-zero span to the decoded family name,
and hands color (wrapped in `Some`), stretch, style, weight, metadata
and cache-key flags to the engine unchanged. -/
theorem set_text_marshals_attrs (prim : PrimAttrs) (text : List Nat)
    (shaping : Nat) (call : SetTextCall)
    (h : buffer_set_text prim text shaping = some call) :
    (prim.familySpan = [] → call.attrs.family = RFamily.serif) ∧
    (∀ fam, prim.familySpan ≠ [] → utf16Decode prim.familySpan = some fam →
      call.attrs.family = RFamily.name fam) ∧
    call.attrs.color_opt = some prim.color ∧
    call.attrs.stretch = prim.stretch ∧
    call.attrs.style = prim.style ∧
    call.attrs.weight = prim.weight ∧
    call.attrs.metadata = prim.metadata ∧
    call.attrs.cache_key_flags = prim.cache_key_flags := by
  unfold buffer_set_text at h
  obtain ⟨fam, hfam, hrest⟩ := Option.bind_eq_some.mp h
  obtain ⟨str, hstr, hcall⟩ := Option.map_eq_some'.mp hrest
  subst hcall
  refine ⟨?_, ?_, rfl, rfl, rfl, rfl, rfl, rfl⟩
  · intro hspan
    unfold familyOf at hfam
    rw [hspan] at hfam
    cases hfam
    rfl
  · intro fam' hne hdec
    unfold familyOf at hfam
    cases hspan : prim.familySpan with
    | nil => exact absurd hspan hne
    | cons a l =>
      rw [hspan] at hfam hdec
      rw [hdec] at hfam
      simp only [Option.map_some', Option.some.injEq] at hfam
      rw [← hfam]

theorem set_text_marshals_attrs_witness :
    buffer_set_text ⟨3, [0x41], 4, 5, 6, 7, 8⟩ [0x48] 2 =
      some ⟨⟨some 3, RFamily.name [0x41], 4, 5, 6, 7, 8⟩, [0x48], 2⟩ ∧
    (((⟨3, [0x41], 4, 5, 6, 7, 8⟩ : PrimAttrs).familySpan = [] →
        (⟨⟨some 3, RFamily.name [0x41], 4, 5, 6, 7, 8⟩, [0x48], 2⟩ :
          SetTextCall).attrs.family = RFamily.serif) ∧
      (∀ fam, (⟨3, [0x41], 4, 5, 6, 7, 8⟩ : PrimAttrs).familySpan ≠ [] →
        utf16Decode (⟨3, [0x41], 4, 5, 6, 7, 8⟩ : PrimAttrs).familySpan = some fam →
        (⟨⟨some 3, RFamily.name [0x41], 4, 5, 6, 7, 8⟩, [0x48], 2⟩ :
          SetTextCall).attrs.family = RFamily.name fam) ∧
      (⟨⟨some 3, RFamily.name [0x41], 4, 5, 6, 7, 8⟩, [0x48], 2⟩ :
        SetTextCall).attrs.color_opt =
        some (⟨3, [0x41], 4, 5, 6, 7, 8⟩ : PrimAttrs).color ∧
      (⟨⟨some 3, RFamily.name [0x41], 4, 5, 6, 7, 8⟩, [0x48], 2⟩ :
        SetTextCall).attrs.stretch =
        (⟨3, [0x41], 4, 5, 6, 7, 8⟩ : PrimAttrs).stretch ∧
      (⟨⟨some 3, RFamily.name [0x41], 4, 5, 6, 7, 8⟩, [0x48], 2⟩ :
        SetTextCall).attrs.style =
        (⟨3, [0x41], 4, 5, 6, 7, 8⟩ : PrimAttrs).style ∧
      (⟨⟨some 3, RFamily.name [0x41], 4, 5, 6, 7, 8⟩, [0x48], 2⟩ :
        SetTextCall).attrs.weight =
        (⟨3, [0x41], 4, 5, 6, 7, 8⟩ : PrimAttrs).weight ∧
      (⟨⟨some 3, RFamily.name [0x41], 4, 5, 6, 7, 8⟩, [0x48], 2⟩ :
        SetTextCall).attrs.metadata =
        (⟨3, [0x41], 4, 5, 6, 7, 8⟩ : PrimAttrs).metadata ∧
      (⟨⟨some 3, RFamily.name [0x41], 4, 5, 6, 7, 8⟩, [0x48], 2⟩ :
        SetTextCall).attrs.cache_key_flags =
        (⟨3, [0x41], 4, 5, 6, 7, 8⟩ : PrimAttrs).cache_key_flags) :=
  ⟨by decide,
    set_text_marshals_attrs ⟨3, [0x41], 4, 5, 6, 7, 8⟩ [0x48] 2
      ⟨⟨some 3, RFamily.name [0x41], 4, 5, 6, 7, 8⟩, [0x48], 2⟩ (by decide)⟩

/-- Claim C10: `swashcache_get_image_uncached` reports the engine's
outcome as a boolean.  When the engine produces no image it returns
`false` and leaves the out-parameter untouched; when it returns `true`,
the out-parameter holds the image whose content kind and placement are
the engine's, and whose pixel data lives in a fresh Transfer Buffer
owning the cloned pixel bytes. -/
theorem raster_uncached_found_flag (freshAddr : Nat)
    (res : Option EngineImage) (prev : SwashImage) :
    (res = none →
      swashcache_get_image_uncached freshAddr res prev = some (false, prev)) ∧
    (∀ img, res = some img → img.data.len ≤ 2147483647 →
      swashcache_get_image_uncached freshAddr res prev =
        some (true,
          ⟨⟨freshAddr, img.data.store.take img.data.len,
              Int.ofNat img.data.len, Int.ofNat img.data.len⟩,
            img.content, img.placement⟩)) := by
  constructor
  · intro h
    subst h
    rfl
  · intro img h hle
    subst h
    unfold swashcache_get_image_uncached cloneVec ByteBuffer.from_vec
    simp [hle]

theorem raster_uncached_found_flag_witness :
    swashcache_get_image_uncached 7 none
        ⟨⟨0, [], 0, 0⟩, SwashContent.mask, ⟨0, 0, 0, 0⟩⟩ =
      some (false, ⟨⟨0, [], 0, 0⟩, SwashContent.mask, ⟨0, 0, 0, 0⟩⟩) ∧
    (⟨⟨3, [9, 9], 2, 2⟩, SwashContent.mask, ⟨0, 1, 2, 3⟩⟩ :
      EngineImage).data.len ≤ 2147483647 ∧
    swashcache_get_image_uncached 7
        (some ⟨⟨3, [9, 9], 2, 2⟩, SwashContent.mask, ⟨0, 1, 2, 3⟩⟩)
        ⟨⟨0, [], 0, 0⟩, SwashContent.mask, ⟨0, 0, 0, 0⟩⟩ =
      some (true,
        ⟨⟨7,
            (⟨⟨3, [9, 9], 2, 2⟩, SwashContent.mask, ⟨0, 1, 2, 3⟩⟩ :
              EngineImage).data.store.take
              (⟨⟨3, [9, 9], 2, 2⟩, SwashContent.mask, ⟨0, 1, 2, 3⟩⟩ :
                EngineImage).data.len,
            Int.ofNat (⟨⟨3, [9, 9], 2, 2⟩, SwashContent.mask, ⟨0, 1, 2, 3⟩⟩ :
              EngineImage).data.len,
            Int.ofNat (⟨⟨3, [9, 9], 2, 2⟩, SwashContent.mask, ⟨0, 1, 2, 3⟩⟩ :
              EngineImage).data.len⟩,
          (⟨⟨3, [9, 9], 2, 2⟩, SwashContent.mask, ⟨0, 1, 2, 3⟩⟩ :
            EngineImage).content,
          (⟨⟨3, [9, 9], 2, 2⟩, SwashContent.mask, ⟨0, 1, 2, 3⟩⟩ :
            EngineImage).placement⟩) :=
  ⟨(raster_uncached_found_flag 7 none
      ⟨⟨0, [], 0, 0⟩, SwashContent.mask, ⟨0, 0, 0, 0⟩⟩).1 rfl,
    by decide,
    (raster_uncached_found_flag 7
        (some ⟨⟨3, [9, 9], 2, 2⟩, SwashContent.mask, ⟨0, 1, 2, 3⟩⟩)
        ⟨⟨0, [], 0, 0⟩, SwashContent.mask, ⟨0, 0, 0, 0⟩⟩).2
      ⟨⟨3, [9, 9], 2, 2⟩, SwashContent.mask, ⟨0, 1, 2, 3⟩⟩ rfl (by decide)⟩
